import Mathlib

/-!
Shallow embedding of the `react-vnc-lib` VNC client core
(`src/core/VNCClient.ts`, `src/utils/protocol.ts`) over lists of bytes
(`List Nat`, each element a byte value), with the theorems that settle the
specification claims.

JavaScript numeric conversions are made explicit: `DataView.setUint16` /
`setUint32` truncate their (integer) argument modulo 2^16 / 2^32, and
out-of-bounds typed-array reads raise, modelled by `Except`.
-/

namespace ReactVNC

/-! ## Codec: `VNCProtocolUtils` (`src/utils/protocol.ts`) -/

/-- `DataView.setUint8` conversion: integer value truncated modulo 2^8. -/
def u8 (v : Int) : Nat := (v % 256).toNat

/-- `DataView.setUint16(_, v, false)`: big-endian bytes of `v` truncated
modulo 2^16 (JavaScript `ToUint16`). -/
def u16be (v : Int) : List Nat :=
  let n := (v % 65536).toNat
  [n / 256, n % 256]

/-- `DataView.setUint32(_, v, false)`: big-endian bytes of `v` truncated
modulo 2^32 (JavaScript `ToUint32`). -/
def u32be (v : Int) : List Nat :=
  let n := (v % 4294967296).toNat
  [n / 16777216, n / 65536 % 256, n / 256 % 256, n % 256]

/-- `DataView.getUint16(off, false)` over a byte list. -/
def readU16 (data : List Nat) (off : Nat) : Nat :=
  data.getD off 0 * 256 + data.getD (off + 1) 0

/-- `DataView.getUint32(off, false)` over a byte list. -/
def readU32 (data : List Nat) (off : Nat) : Nat :=
  data.getD off 0 * 16777216 + data.getD (off + 1) 0 * 65536 +
    data.getD (off + 2) 0 * 256 + data.getD (off + 3) 0

/-- `VNCPixelFormat` (`src/types/vnc.ts`). -/
structure PixelFormat where
  bitsPerPixel : Int
  depth : Int
  bigEndian : Bool
  trueColor : Bool
  redMax : Int
  greenMax : Int
  blueMax : Int
  redShift : Int
  greenShift : Int
  blueShift : Int
  deriving DecidableEq, Repr

/-- `VNCServerInitMessage`, with the server name kept as its raw UTF-8
bytes (the source decodes them with `TextDecoder`; text decoding is out of
scope, the byte content and length are what the claims are about). -/
structure ServerInit where
  width : Nat
  height : Nat
  pixelFormat : PixelFormat
  name : List Nat
  deriving DecidableEq, Repr

/-- `VNCProtocolUtils.getDefaultPixelFormat`. -/
def getDefaultPixelFormat : PixelFormat :=
  { bitsPerPixel := 32, depth := 24, bigEndian := false, trueColor := true,
    redMax := 255, greenMax := 255, blueMax := 255,
    redShift := 0, greenShift := 8, blueShift := 16 }

/-- `VNCProtocolUtils.createClientInit`. -/
def createClientInit (shared : Bool) : List Nat :=
  [if shared then 1 else 0]

/-- `VNCProtocolUtils.createSetPixelFormat`: bytes 17-19 are never written
and stay at the `ArrayBuffer` zero fill. -/
def createSetPixelFormat (pf : PixelFormat) : List Nat :=
  [0, 0, 0, 0,
   u8 pf.bitsPerPixel, u8 pf.depth,
   if pf.bigEndian then 1 else 0, if pf.trueColor then 1 else 0] ++
  u16be pf.redMax ++ u16be pf.greenMax ++ u16be pf.blueMax ++
  [u8 pf.redShift, u8 pf.greenShift, u8 pf.blueShift, 0, 0, 0]

/-- `VNCProtocolUtils.createFramebufferUpdateRequest`. -/
def createFramebufferUpdateRequest (incremental : Bool) (x y width height : Int) :
    List Nat :=
  [3, if incremental then 1 else 0] ++ u16be x ++ u16be y ++ u16be width ++ u16be height

/-- `VNCProtocolUtils.createKeyEvent`. -/
def createKeyEvent (down : Bool) (key : Int) : List Nat :=
  [4, if down then 1 else 0, 0, 0] ++ u32be key

/-- `VNCProtocolUtils.createPointerEvent`. -/
def createPointerEvent (buttonMask x y : Int) : List Nat :=
  [5, u8 buttonMask] ++ u16be x ++ u16be y

/-- `VNCProtocolUtils.parseServerInit`. The fixed reads (offsets 0-23)
raise on a buffer shorter than 24 bytes; `new Uint8Array(data, 24,
nameLength)` raises when `24 + nameLength` exceeds the buffer length. -/
def parseServerInit (data : List Nat) : Except String ServerInit :=
  if 24 ≤ data.length then
    let nameLength := readU32 data 20
    if 24 + nameLength ≤ data.length then
      .ok { width := readU16 data 0
            height := readU16 data 2
            pixelFormat :=
              { bitsPerPixel := Int.ofNat (data.getD 4 0)
                depth := Int.ofNat (data.getD 5 0)
                bigEndian := data.getD 6 0 == 1
                trueColor := data.getD 7 0 == 1
                redMax := Int.ofNat (readU16 data 8)
                greenMax := Int.ofNat (readU16 data 10)
                blueMax := Int.ofNat (readU16 data 12)
                redShift := Int.ofNat (data.getD 14 0)
                greenShift := Int.ofNat (data.getD 15 0)
                blueShift := Int.ofNat (data.getD 16 0) }
            name := (data.drop 24).take nameLength }
    else .error "Invalid typed array length"
  else .error "Offset is outside the bounds of the DataView"

/-! ## DES authenticator (`VNCClient.vncDesEncrypt`, `VNCClient.vncEncrypt`)

Bits are `List Nat` of 0/1 values, most significant bit of each byte
first, exactly as the source's `bytesToBits` produces them. -/

/-- The source's `bytesToBits` applied to one byte: bits MSB first. -/
def byteBits (b : Nat) : List Nat :=
  (List.range 8).map (fun i => b >>> (7 - i) &&& 1)

/-- `bytesToBits` helper from `vncDesEncrypt`. -/
def bytesToBits (bytes : List Nat) : List Nat :=
  bytes.flatMap byteBits

/-- `bitsToBytes` helper from `vncDesEncrypt`: bytes rebuilt by OR-ing the
set bits into position `7 - (i % 8)` of byte `i / 8`. -/
def bitsToBytes (bits : List Nat) : List Nat :=
  (List.range ((bits.length + 7) / 8)).map (fun j =>
    (List.range 8).foldl (fun acc k =>
      if bits.getD (8 * j + k) 0 ≠ 0 then acc ||| (1 <<< (7 - k)) else acc) 0)

/-- `permute` helper: `table.map(pos => input[pos - 1])`. -/
def permute (input table : List Nat) : List Nat :=
  table.map (fun pos => input.getD (pos - 1) 0)

/-- `leftShift` helper: rotate left by `s` positions. -/
def leftShiftBits (input : List Nat) (s : Nat) : List Nat :=
  input.drop s ++ input.take s

/-- Bitwise XOR of two bit vectors (`a.map((bit, i) => bit ^ b[i])` for
equal-length vectors). -/
def xorBits (a b : List Nat) : List Nat :=
  a.zipWith (fun x y => x ^^^ y) b

/-- The 8 DES S-boxes as laid out in `vncDesEncrypt`. -/
def sBoxes : List (List Nat) :=
  [[14, 4, 13, 1, 2, 15, 11, 8, 3, 10, 6, 12, 5, 9, 0, 7,
    0, 15, 7, 4, 14, 2, 13, 1, 10, 6, 12, 11, 9, 5, 3, 8,
    4, 1, 14, 8, 13, 6, 2, 11, 15, 12, 9, 7, 3, 10, 5, 0,
    15, 12, 8, 2, 4, 9, 1, 7, 5, 11, 3, 14, 10, 0, 6, 13],
   [15, 1, 8, 14, 6, 11, 3, 4, 9, 7, 2, 13, 12, 0, 5, 10,
    3, 13, 4, 7, 15, 2, 8, 14, 12, 0, 1, 10, 6, 9, 11, 5,
    0, 14, 7, 11, 10, 4, 13, 1, 5, 8, 12, 6, 9, 3, 2, 15,
    13, 8, 10, 1, 3, 15, 4, 2, 11, 6, 7, 12, 0, 5, 14, 9],
   [10, 0, 9, 14, 6, 3, 15, 5, 1, 13, 12, 7, 11, 4, 2, 8,
    13, 7, 0, 9, 3, 4, 6, 10, 2, 8, 5, 14, 12, 11, 15, 1,
    13, 6, 4, 9, 8, 15, 3, 0, 11, 1, 2, 12, 5, 10, 14, 7,
    1, 10, 13, 0, 6, 9, 8, 7, 4, 15, 14, 3, 11, 5, 2, 12],
   [7, 13, 14, 3, 0, 6, 9, 10, 1, 2, 8, 5, 11, 12, 4, 15,
    13, 8, 11, 5, 6, 15, 0, 3, 4, 7, 2, 12, 1, 10, 14, 9,
    10, 6, 9, 0, 12, 11, 7, 13, 15, 1, 3, 14, 5, 2, 8, 4,
    3, 15, 0, 6, 10, 1, 13, 8, 9, 4, 5, 11, 12, 7, 2, 14],
   [2, 12, 4, 1, 7, 10, 11, 6, 8, 5, 3, 15, 13, 0, 14, 9,
    14, 11, 2, 12, 4, 7, 13, 1, 5, 0, 15, 10, 3, 9, 8, 6,
    4, 2, 1, 11, 10, 13, 7, 8, 15, 9, 12, 5, 6, 3, 0, 14,
    11, 8, 12, 7, 1, 14, 2, 13, 6, 15, 0, 9, 10, 4, 5, 3],
   [12, 1, 10, 15, 9, 2, 6, 8, 0, 13, 3, 4, 14, 7, 5, 11,
    10, 15, 4, 2, 7, 12, 9, 5, 6, 1, 13, 14, 0, 11, 3, 8,
    9, 14, 15, 5, 2, 8, 12, 3, 7, 0, 4, 10, 1, 13, 11, 6,
    4, 3, 2, 12, 9, 5, 15, 10, 11, 14, 1, 7, 6, 0, 8, 13],
   [4, 11, 2, 14, 15, 0, 8, 13, 3, 12, 9, 7, 5, 10, 6, 1,
    13, 0, 11, 7, 4, 9, 1, 10, 14, 3, 5, 12, 2, 15, 8, 6,
    1, 4, 11, 13, 12, 3, 7, 14, 10, 15, 6, 8, 0, 5, 9, 2,
    6, 11, 13, 8, 1, 4, 10, 7, 9, 5, 0, 15, 14, 2, 3, 12],
   [13, 2, 8, 4, 6, 15, 11, 1, 10, 9, 3, 14, 5, 0, 12, 7,
    1, 15, 13, 8, 10, 3, 7, 4, 12, 5, 6, 11, 0, 14, 9, 2,
    7, 11, 4, 1, 9, 12, 14, 2, 0, 6, 10, 13, 15, 3, 5, 8,
    2, 1, 14, 7, 4, 10, 8, 13, 15, 12, 9, 0, 3, 5, 6, 11]]

/-- Initial permutation table `ip`. -/
def ipTable : List Nat :=
  [58, 50, 42, 34, 26, 18, 10, 2,
   60, 52, 44, 36, 28, 20, 12, 4,
   62, 54, 46, 38, 30, 22, 14, 6,
   64, 56, 48, 40, 32, 24, 16, 8,
   57, 49, 41, 33, 25, 17, 9, 1,
   59, 51, 43, 35, 27, 19, 11, 3,
   61, 53, 45, 37, 29, 21, 13, 5,
   63, 55, 47, 39, 31, 23, 15, 7]

/-- Final permutation table `fp` (inverse of IP). -/
def fpTable : List Nat :=
  [40, 8, 48, 16, 56, 24, 64, 32,
   39, 7, 47, 15, 55, 23, 63, 31,
   38, 6, 46, 14, 54, 22, 62, 30,
   37, 5, 45, 13, 53, 21, 61, 29,
   36, 4, 44, 12, 52, 20, 60, 28,
   35, 3, 43, 11, 51, 19, 59, 27,
   34, 2, 42, 10, 50, 18, 58, 26,
   33, 1, 41, 9, 49, 17, 57, 25]

/-- Expansion permutation table `e`. -/
def eTable : List Nat :=
  [32, 1, 2, 3, 4, 5,
   4, 5, 6, 7, 8, 9,
   8, 9, 10, 11, 12, 13,
   12, 13, 14, 15, 16, 17,
   16, 17, 18, 19, 20, 21,
   20, 21, 22, 23, 24, 25,
   24, 25, 26, 27, 28, 29,
   28, 29, 30, 31, 32, 1]

/-- Permutation after the S-boxes, table `p`. -/
def pTable : List Nat :=
  [16, 7, 20, 21, 29, 12, 28, 17,
   1, 15, 23, 26, 5, 18, 31, 10,
   2, 8, 24, 14, 32, 27, 3, 9,
   19, 13, 30, 6, 22, 11, 4, 25]

/-- Key schedule permutation `pc1`. -/
def pc1Table : List Nat :=
  [57, 49, 41, 33, 25, 17, 9,
   1, 58, 50, 42, 34, 26, 18,
   10, 2, 59, 51, 43, 35, 27,
   19, 11, 3, 60, 52, 44, 36,
   63, 55, 47, 39, 31, 23, 15,
   7, 62, 54, 46, 38, 30, 22,
   14, 6, 61, 53, 45, 37, 29,
   21, 13, 5, 28, 20, 12, 4]

/-- Key schedule permutation `pc2`. -/
def pc2Table : List Nat :=
  [14, 17, 11, 24, 1, 5,
   3, 28, 15, 6, 21, 10,
   23, 19, 12, 4, 26, 8,
   16, 7, 27, 20, 13, 2,
   41, 52, 31, 37, 47, 55,
   30, 40, 51, 45, 33, 48,
   44, 49, 39, 56, 34, 53,
   46, 42, 50, 36, 29, 32]

/-- Per-round left-shift schedule `shifts`. -/
def shiftSchedule : List Nat := [1, 1, 2, 2, 2, 2, 2, 2, 1, 2, 2, 2, 2, 2, 2, 1]

/-- S-box substitution layer: the inner `for (let s = 0; s < 8; s++)` loop
of a round in `vncDesEncrypt`. -/
def sBoxLayer (xored : List Nat) : List Nat :=
  (List.range 8).flatMap (fun s =>
    let chunk := (xored.drop (s * 6)).take 6
    let row := chunk.getD 0 0 <<< 1 ||| chunk.getD 5 0
    let col := chunk.getD 1 0 <<< 3 ||| chunk.getD 2 0 <<< 2 |||
      chunk.getD 3 0 <<< 1 ||| chunk.getD 4 0
    let sValue := (sBoxes.getD s []).getD (row * 16 + col) 0
    (List.range 4).map (fun i => sValue >>> (3 - i) &&& 1))

/-- One iteration of the source's 16-round loop: state is
`(left, right, c, d)`; the round key is derived in place by shifting the
key halves and applying PC-2. -/
def desRoundStep (st : List Nat × List Nat × List Nat × List Nat) (sh : Nat) :
    List Nat × List Nat × List Nat × List Nat :=
  match st with
  | (left, right, c, d) =>
    let c2 := leftShiftBits c sh
    let d2 := leftShiftBits d sh
    let roundKey := permute (c2 ++ d2) pc2Table
    let expanded := permute right eTable
    let xored := xorBits expanded roundKey
    let fResult := permute (sBoxLayer xored) pTable
    let newRight := xorBits left fResult
    (right, newRight, c2, d2)

/-- `VNCClient.vncDesEncrypt`: single-block DES encryption as written in
the source (IP, 16 fused key-schedule/Feistel rounds, final swap, FP). -/
def vncDesEncrypt (block key : List Nat) : List Nat :=
  let blockBits := bytesToBits block
  let keyBits := bytesToBits key
  let ipResult := permute blockBits ipTable
  let left := ipResult.take 32
  let right := (ipResult.drop 32).take 32
  let keyPermuted := permute keyBits pc1Table
  let c := keyPermuted.take 28
  let d := (keyPermuted.drop 28).take 28
  let final := shiftSchedule.foldl desRoundStep (left, right, c, d)
  let preOutput := final.2.1 ++ final.1
  bitsToBytes (permute preOutput fpTable)

/-- The per-byte bit reversal from `vncEncrypt` (RFC 6143 Errata 4951
quirk), written with the source's mask-and-shift expression. -/
def reverseKeyByte (b : Nat) : Nat :=
  ((b &&& 0x01) <<< 7) ||| ((b &&& 0x02) <<< 5) ||| ((b &&& 0x04) <<< 3) |||
    ((b &&& 0x08) <<< 1) ||| ((b &&& 0x10) >>> 1) ||| ((b &&& 0x20) >>> 3) |||
    ((b &&& 0x40) >>> 5) ||| ((b &&& 0x80) >>> 7)

/-- `VNCClient.vncEncrypt`: the password's UTF-8 bytes are truncated or
zero-padded to 8 bytes, each key byte's bits are reversed, and the two
8-byte challenge halves are DES-encrypted independently. -/
def vncEncrypt (password challenge : List Nat) : List Nat :=
  let key0 := (List.range 8).map (fun i => if i < password.length then password.getD i 0 else 0)
  let key := key0.map reverseKeyByte
  vncDesEncrypt (challenge.take 8) key ++ vncDesEncrypt ((challenge.drop 8).take 8) key

/-! ### Spec-side model of the DES authenticator (§4.2 of the spec)

The following definitions follow the specification's words — PC-1, the
rotation schedule producing the 16 per-round subkeys, PC-2, then IP, 16
Feistel rounds (expansion E, subkey XOR, S-boxes, P-box), the final swap
and FP; the key is the first 8 password bytes zero-padded with each
byte's bit order reversed — rather than the source's fused loop. -/

/-- Spec model: bit-order reversal of one byte (LSB↔MSB). -/
def specReverseByte (b : Nat) : Nat :=
  ((List.range 8).map (fun i => ((b >>> i) &&& 1) <<< (7 - i))).sum

/-- Spec model, §4.2 key derivation: first 8 password bytes, right-padded
with zeros, each byte bit-reversed. -/
def specKeyBytes (password : List Nat) : List Nat :=
  (password.take 8 ++ List.replicate (8 - password.length) 0).map specReverseByte

/-- Spec model: the 16 48-bit subkeys from the PC-1 halves under the
rotation schedule, each through PC-2. -/
def desSubkeysFrom : List Nat → List Nat → List Nat → List (List Nat)
  | [], _, _ => []
  | sh :: rest, c, d =>
    let c2 := leftShiftBits c sh
    let d2 := leftShiftBits d sh
    permute (c2 ++ d2) pc2Table :: desSubkeysFrom rest c2 d2

/-- Spec model: the Feistel function — expansion E, subkey XOR, the 8
S-boxes, P-box. -/
def specFeistel (subkey right : List Nat) : List Nat :=
  permute (sBoxLayer (xorBits (permute right eTable) subkey)) pTable

/-- Spec model: one Feistel round over the `(left, right)` halves. -/
def specRoundStep (st : List Nat × List Nat) (subkey : List Nat) :
    List Nat × List Nat :=
  (st.2, xorBits st.1 (specFeistel subkey st.2))

/-- Spec model: standard single-block DES encryption: IP, 16 rounds over
the precomputed subkeys, swap, FP. -/
def specDesEncrypt (block key : List Nat) : List Nat :=
  let kp := permute (bytesToBits key) pc1Table
  let subkeys := desSubkeysFrom shiftSchedule (kp.take 28) ((kp.drop 28).take 28)
  let ipRes := permute (bytesToBits block) ipTable
  let lr := subkeys.foldl specRoundStep (ipRes.take 32, (ipRes.drop 32).take 32)
  bitsToBytes (permute (lr.2 ++ lr.1) fpTable)

/-- Spec model, §4.2: DES-ECB over the two 8-byte challenge halves under
the derived key, concatenated. -/
def specVNCAuth (password challenge : List Nat) : List Nat :=
  specDesEncrypt (challenge.take 8) (specKeyBytes password) ++
    specDesEncrypt ((challenge.drop 8).take 8) (specKeyBytes password)


/-! ## Session controller and protocol state machine (`VNCClient`) -/

/-- The `vncState` tag of `VNCClient`. -/
inductive Phase
  | version
  | security
  | auth
  | init
  | connected
  deriving DecidableEq, Repr

/-- The errors the client can raise (the source throws `Error` values;
only the error identity matters here, reasons are carried as bytes). -/
inductive VNCError
  | securityFailed (reason : List Nat)
  | securityFailedUnknown
  | outOfBounds
  | noSupportedSecType
  | authRequired
  | authFailed
  | authFailedReason (reason : List Nat)
  | unexpectedAuthLength (n : Nat)
  | protocolError (msg : String)
  | closeCode (code : Nat)
  deriving DecidableEq, Repr

/-- Events emitted through the client's handler registry. -/
inductive Ev
  | connecting
  | connected
  | disconnected
  | errorEv (e : VNCError)
  deriving DecidableEq, Repr

/-- The configuration fields of `VNCClientOptions` the claims depend on.
The password is its UTF-8 byte encoding; JavaScript truthiness of the
(defaulted-to-`''`) password string is emptiness of the byte list. -/
structure Options where
  password : List Nat
  viewOnly : Bool
  scale : ℚ
  deriving DecidableEq

/-- The mutable fields of `VNCClient` the claims depend on: the observable
`VNCConnectionState`, the protocol phase, the reconnect counter, the
connect timer, the transport handle, and the stored `ServerInit`. -/
structure ClientState where
  phase : Phase := .version
  connected : Bool := false
  connecting : Bool := false
  error : Option VNCError := none
  serverName : Option (List Nat) := none
  width : Nat := 0
  height : Nat := 0
  timerArmed : Bool := false
  wsOpen : Bool := false
  reconnectAttempts : Nat := 0
  serverInitStored : Option ServerInit := none
  deriving DecidableEq, Repr

/-- `"RFB 003.008\n"` as the ASCII bytes sent by `handleProtocolVersion`. -/
def rfbVersionBytes : List Nat :=
  [0x52, 0x46, 0x42, 0x20, 0x30, 0x30, 0x33, 0x2E, 0x30, 0x30, 0x38, 0x0A]

/-- The security-type collection loop of `handleSecurityResponse`:
`for (i = 0; i < numSecTypes; i++) if (byteLength > 1 + i) push(data[1+i])`. -/
def secTypesOf (data : List Nat) (numSecTypes : Nat) : List Nat :=
  (List.range numSecTypes).foldl (fun acc i =>
    if 1 + i < data.length then acc ++ [data.getD (1 + i) 0] else acc) []

/-- `VNCClient.handleSecurityResponse`: returns the messages to send and
the next phase, or the thrown error. A message shorter than 2 bytes is
silently ignored (the guard has no `else`), modelled by `.ok ([], .security)`. -/
def handleSecurityResponse (password data : List Nat) :
    Except VNCError (List (List Nat) × Phase) :=
  if 2 ≤ data.length then
    let numSecTypes := data.getD 0 0
    if numSecTypes = 0 then
      if 5 ≤ data.length then
        let reasonLength := readU32 data 1
        if 5 + reasonLength ≤ data.length then
          .error (.securityFailed ((data.drop 5).take reasonLength))
        else .error .securityFailedUnknown
      else .error .outOfBounds
    else
      let secTypes := secTypesOf data numSecTypes
      if password ≠ [] ∧ 2 ∈ secTypes then
        .ok ([[2]], .auth)
      else if 1 ∈ secTypes then
        .ok ([[1], createClientInit true], .init)
      else .error .noSupportedSecType
  else .ok ([], .security)

/-- Strip trailing NUL bytes, as `reason.replace(/\0+$/, '')` does. -/
def stripTrailingZeros (bytes : List Nat) : List Nat :=
  (bytes.reverse.dropWhile (· = 0)).reverse

/-- `VNCClient.handleAuthResponse`. On an authentication failure with a
reason the source closes the WebSocket before throwing; `step` applies
that effect when it sees `.authFailedReason`. -/
def handleAuthResponse (password data : List Nat) :
    Except VNCError (List (List Nat) × Phase) :=
  if data.length = 16 then
    if password = [] then .error .authRequired
    else .ok ([vncEncrypt password data], .auth)
  else if data.length = 4 then
    if readU32 data 0 = 0 then .ok ([createClientInit true], .init)
    else .error .authFailed
  else if 8 ≤ data.length then
    if readU32 data 0 = 0 then .ok ([createClientInit true], .init)
    else
      let reasonLength := readU32 data 4
      if 8 + reasonLength ≤ data.length then
        .error (.authFailedReason (stripTrailingZeros ((data.drop 8).take reasonLength)))
      else .error (.authFailedReason [])
  else .error (.unexpectedAuthLength data.length)

/-- `sendMessage` / `sendRawMessage`: a write reaches the wire only while
the WebSocket is open. -/
def sendAll (s : ClientState) (outs : List (List Nat)) : List (List Nat) :=
  if s.wsOpen then outs else []

/-- `VNCClient.handleServerMessage`: one inbound WebSocket message
dispatched on the current phase. Returns the new state, the outbound
messages, and the emitted events; a thrown error is caught and surfaced
as an `error` event, keeping the state mutations made before the throw. -/
def step (opts : Options) (s : ClientState) (data : List Nat) :
    ClientState × List (List Nat) × List Ev :=
  match s.phase with
  | .version =>
    if 12 ≤ data.length then
      ({ s with phase := .security }, sendAll s [rfbVersionBytes], [])
    else (s, [], [])
  | .security =>
    match handleSecurityResponse opts.password data with
    | .ok (outs, ph) => ({ s with phase := ph }, sendAll s outs, [])
    | .error e => (s, [], [.errorEv e])
  | .auth =>
    match handleAuthResponse opts.password data with
    | .ok (outs, ph) => ({ s with phase := ph }, sendAll s outs, [])
    | .error (.authFailedReason r) =>
      ({ s with wsOpen := false }, [], [.errorEv (.authFailedReason r)])
    | .error e => (s, [], [.errorEv e])
  | .init =>
    if 24 ≤ data.length then
      match parseServerInit data with
      | .ok si =>
        let s2 := { s with
          serverInitStored := some si,
          connected := true, connecting := false,
          serverName := some si.name, width := si.width, height := si.height,
          timerArmed := false, phase := .connected }
        (s2, sendAll s2
          [createFramebufferUpdateRequest false 0 0 (Int.ofNat si.width) (Int.ofNat si.height)],
          [.connected])
      | .error msg => (s, [], [.errorEv (.protocolError msg)])
    else (s, [], [])
  | .connected => (s, [], [])

/-- A sequence of inbound WebSocket messages processed in order, with the
outbound messages and events accumulated. -/
def processChunks (opts : Options) (s : ClientState) (chunks : List (List Nat)) :
    ClientState × List (List Nat) × List Ev :=
  chunks.foldl (fun acc chunk =>
    let r := step opts acc.1 chunk
    (r.1, acc.2.1 ++ r.2.1, acc.2.2 ++ r.2.2)) (s, [], [])

/-! ### Input paths -/

/-- The `keyMap` object literal of `keyToVNCKey`; a missing property reads
as `undefined`, which the source's truthiness test conflates with 0. -/
def keyMapGet (key : String) : Nat :=
  if key = "Backspace" then 0xff08
  else if key = "Tab" then 0xff09
  else if key = "Enter" then 0xff0d
  else if key = "Escape" then 0xff1b
  else if key = "Delete" then 0xffff
  else if key = "ArrowLeft" then 0xff51
  else if key = "ArrowUp" then 0xff52
  else if key = "ArrowRight" then 0xff53
  else if key = "ArrowDown" then 0xff54
  else if key = " " then 0x20
  else 0

/-- JavaScript `String.prototype.length`: UTF-16 code units. -/
def jsStringLength (s : String) : Nat :=
  (s.data.map (fun c => if c.toNat < 65536 then 1 else 2)).sum

/-- JavaScript `charCodeAt(0)`: the first UTF-16 code unit. -/
def jsCharCodeAt0 (s : String) : Nat :=
  match s.data with
  | [] => 0
  | c :: _ => if c.toNat < 65536 then c.toNat else 0xD800 + (c.toNat - 65536) / 1024

/-- `VNCClient.keyToVNCKey` (the `code` argument is accepted and ignored,
as in the source). -/
def keyToVNCKey (key _code : String) : Nat :=
  if keyMapGet key ≠ 0 then keyMapGet key
  else if jsStringLength key = 1 then jsCharCodeAt0 key
  else 0

/-- `VNCClient.sendKeyEvent`: dropped unless connected and not view-only;
otherwise the mapped keysym is encoded and sent. -/
def sendKeyEvent (opts : Options) (s : ClientState) (key code : String) (down : Bool) :
    List (List Nat) :=
  if ¬s.connected ∨ opts.viewOnly then []
  else sendAll s [createKeyEvent down (Int.ofNat (keyToVNCKey key code))]

/-- `VNCClient.sendPointerEvent`: dropped unless connected and not
view-only; coordinates are divided by the scale and floored, then encoded. -/
def sendPointerEvent (opts : Options) (s : ClientState) (buttons : Int) (x y : ℚ) :
    List (List Nat) :=
  if ¬s.connected ∨ opts.viewOnly then []
  else sendAll s
    [createPointerEvent buttons (Int.floor (x / opts.scale)) (Int.floor (y / opts.scale))]

/-! ### Disconnect and reconnect policy -/

/-- `VNCClient.disconnect`: zeroes the reconnect counter, resets the
phase, clears the connect timer, detaches and closes the transport,
resets the observable state, and emits `disconnected` — unconditionally,
on every call. The stored `ServerInit` is the one field it leaves. -/
def disconnect (s : ClientState) : ClientState × List Ev :=
  ({ s with
      reconnectAttempts := 0, phase := .version, timerArmed := false,
      wsOpen := false, connected := false, connecting := false, error := none,
      serverName := none, width := 0, height := 0 },
   [.disconnected])

/-- `VNCClient.shouldAttemptReconnect`: only close code 1006 is
retryable, and only below the attempt limit. -/
def shouldAttemptReconnect (maxAttempts attempts code : Nat) : Bool :=
  [1006].contains code && attempts < maxAttempts

/-- The exponential backoff of `attemptReconnect` for attempt `n`:
`min(1000 * 2^(n-1), 10000)` milliseconds. -/
def backoffDelay (n : Nat) : Nat :=
  min (1000 * 2 ^ (n - 1)) 10000

/-- `VNCClient.handleConnectionClose` composed with `attemptReconnect`:
returns the new state, the scheduled reconnect delay (if one was
scheduled), and the emitted events. -/
def handleConnectionClose (maxAttempts : Nat) (s : ClientState) (code : Nat) :
    ClientState × Option Nat × List Ev :=
  let wasConnected := s.connected
  let err : Option VNCError := if code = 1000 then none else some (.closeCode code)
  let s1 := { s with
    connected := false, connecting := false,
    error := match err with | some e => some e | none => s.error }
  let evs := (match err with | some e => [Ev.errorEv e] | none => []) ++ [Ev.disconnected]
  if wasConnected && shouldAttemptReconnect maxAttempts s.reconnectAttempts code then
    if maxAttempts ≤ s1.reconnectAttempts then (s1, none, evs)
    else
      let a2 := s1.reconnectAttempts + 1
      ({ s1 with reconnectAttempts := a2 }, some (backoffDelay a2), evs)
  else if 0 < s1.reconnectAttempts ∧ (code = 1003 ∨ code = 1002) then
    ({ s1 with reconnectAttempts := maxAttempts }, none, evs)
  else (s1, none, evs)

/-! ### Concrete fixtures used by the closed theorems -/

/-- Options with no password, input enabled, scale 1 (the defaults). -/
def defaultOptions : Options :=
  { password := [], viewOnly := false, scale := 1 }

/-- A client in the `AwaitSecurityTypes` phase over an open transport. -/
def securityPhaseState : ClientState :=
  { phase := .security, wsOpen := true }

/-- A connected session on a 1024×768 server over an open transport. -/
def connectedState : ClientState :=
  { phase := .connected, connected := true, wsOpen := true,
    width := 1024, height := 768 }

/-- A 25-byte `ServerInit` wire record: 800×600, the default pixel
format, name length 1, name `"A"`. -/
def sampleServerInitBytes : List Nat :=
  [3, 32, 2, 88, 32, 24, 0, 1, 0, 255, 0, 255, 0, 255, 0, 8, 16, 0, 0, 0,
   0, 0, 0, 1, 65]

/-! ## Theorems: DES refinement -/


/-- The fused source loop computes the same `(left, right)` halves as the
spec's subkeys-then-rounds formulation. -/
theorem desRounds_eq (shifts : List Nat) :
    ∀ l r c d : List Nat,
      ((shifts.foldl desRoundStep (l, r, c, d)).1,
        (shifts.foldl desRoundStep (l, r, c, d)).2.1)
        = (desSubkeysFrom shifts c d).foldl specRoundStep (l, r) := by
  induction shifts with
  | nil => intro l r c d; rfl
  | cons sh rest ih =>
    intro l r c d
    simp only [List.foldl_cons, desSubkeysFrom, desRoundStep, specRoundStep, specFeistel]
    exact ih _ _ _ _

/-- `vncDesEncrypt` agrees with the spec-modelled standard DES on every
block and key. -/
theorem vncDesEncrypt_eq_spec (block key : List Nat) :
    vncDesEncrypt block key = specDesEncrypt block key := by
  simp only [vncDesEncrypt, specDesEncrypt]
  have h := desRounds_eq shiftSchedule
    ((permute (bytesToBits block) ipTable).take 32)
    (((permute (bytesToBits block) ipTable).drop 32).take 32)
    ((permute (bytesToBits key) pc1Table).take 28)
    (((permute (bytesToBits key) pc1Table).drop 28).take 28)
  have h1 := congrArg Prod.fst h
  have h2 := congrArg Prod.snd h
  simp only at h1 h2
  rw [h1, h2]

set_option maxRecDepth 4000 in
/-- The source's mask-and-shift bit reversal agrees with the spec's
LSB↔MSB reversal on every byte value. -/
theorem reverseKeyByte_eq_spec : ∀ b < 256, reverseKeyByte b = specReverseByte b := by
  decide

/-- The source's key construction (`range 8` with conditional indexing,
then in-place bit reversal) equals the spec's §4.2 key derivation, for
byte-valued password lists. -/
theorem key_bytes_eq (p : List Nat) (hp : ∀ b ∈ p, b < 256) :
    ((List.range 8).map (fun i => if i < p.length then p.getD i 0 else 0)).map
        reverseKeyByte = specKeyBytes p := by
  have hbase : (List.range 8).map (fun i => if i < p.length then p.getD i 0 else 0)
      = p.take 8 ++ List.replicate (8 - p.length) 0 := by
    apply List.ext_getElem
    · simp; omega
    · intro i h1 h2
      simp only [List.getElem_map, List.getElem_range]
      by_cases hi : i < p.length
      · have htk : i < (p.take 8).length := by simp at h1 ⊢; omega
        rw [List.getElem_append_left htk]
        simp [hi, List.getD_eq_getElem?_getD, List.getElem?_eq_getElem hi]
      · have hlen : (p.take 8).length ≤ i := by simp at h1 ⊢; omega
        rw [List.getElem_append_right hlen]
        simp [hi]
  rw [hbase, specKeyBytes]
  apply List.map_congr_left
  intro b hb
  apply reverseKeyByte_eq_spec
  rcases List.mem_append.mp hb with h | h
  · exact hp b (List.mem_of_mem_take h)
  · have := List.eq_of_mem_replicate h
    omega

/-- `vncEncrypt` agrees with the spec-modelled §4.2 authenticator for
every byte-valued password and challenge. -/
theorem vncEncrypt_eq_spec (password challenge : List Nat)
    (hp : ∀ b ∈ password, b < 256) :
    vncEncrypt password challenge = specVNCAuth password challenge := by
  simp only [vncEncrypt, specVNCAuth, key_bytes_eq password hp,
    vncDesEncrypt_eq_spec]

/-! ## Theorems: codec byte-level facts -/

theorem u16be_lt (v : Int) : (v % 65536).toNat < 65536 := by
  have h : (0 : Int) ≤ v % 65536 := Int.emod_nonneg v (by norm_num)
  have h2 : v % 65536 < 65536 := Int.emod_lt_of_pos v (by norm_num)
  omega

theorem readU16_u16be (v : Int) (rest : List Nat) :
    readU16 (u16be v ++ rest) 0 = (v % 65536).toNat := by
  have h := u16be_lt v
  simp only [readU16, u16be, List.cons_append, List.getD_cons_zero, List.getD_cons_succ]
  omega

theorem u32be_lt (v : Int) : (v % 4294967296).toNat < 4294967296 := by
  have h : (0 : Int) ≤ v % 4294967296 := Int.emod_nonneg v (by norm_num)
  have h2 : v % 4294967296 < 4294967296 := Int.emod_lt_of_pos v (by norm_num)
  omega

theorem readU32_u32be (v : Int) (rest : List Nat) :
    readU32 (u32be v ++ rest) 0 = (v % 4294967296).toNat := by
  have h := u32be_lt v
  simp only [readU32, u32be, List.cons_append, List.getD_cons_zero, List.getD_cons_succ]
  omega

theorem readU16_cons (a : Nat) (l : List Nat) (off : Nat) :
    readU16 (a :: l) (off + 1) = readU16 l off := by
  simp only [readU16, List.getD_cons_succ]

theorem readU32_cons (a : Nat) (l : List Nat) (off : Nat) :
    readU32 (a :: l) (off + 1) = readU32 l off := by
  have h2 : off + 1 + 2 = (off + 2) + 1 := rfl
  have h3 : off + 1 + 3 = (off + 3) + 1 := rfl
  simp only [readU32, h2, h3, List.getD_cons_succ]

/-- C8: every outbound codec record has exactly its declared fixed byte
length and layout: ClientInit 1 byte; SetPixelFormat 20 bytes (type 0,
3 bytes of padding, 16-byte pixel format); FramebufferUpdateRequest 10
bytes (type 3); KeyEvent 8 bytes (type 4, down flag, 2 bytes of padding,
big-endian u32 keysym); PointerEvent 6 bytes (type 5, mask u8, x u16,
y u16 big-endian). -/
theorem C8_outbound_record_layout :
    (∀ shared, (createClientInit shared).length = 1 ∧
      createClientInit shared = [if shared then 1 else 0]) ∧
    (∀ pf, (createSetPixelFormat pf).length = 20 ∧
      (createSetPixelFormat pf).take 4 = [0, 0, 0, 0] ∧
      ((createSetPixelFormat pf).drop 4).length = 16) ∧
    (∀ (inc : Bool) (x y w h : Int),
      (createFramebufferUpdateRequest inc x y w h).length = 10 ∧
      (createFramebufferUpdateRequest inc x y w h).getD 0 0 = 3 ∧
      (createFramebufferUpdateRequest inc x y w h).getD 1 0
        = (if inc then 1 else 0)) ∧
    (∀ (down : Bool) (key : Int),
      (createKeyEvent down key).length = 8 ∧
      createKeyEvent down key = [4, if down then 1 else 0, 0, 0] ++ u32be key ∧
      readU32 (createKeyEvent down key) 4 = (key % 4294967296).toNat) ∧
    (∀ (mask x y : Int),
      (createPointerEvent mask x y).length = 6 ∧
      createPointerEvent mask x y = [5, u8 mask] ++ u16be x ++ u16be y) := by
  refine ⟨fun shared => ⟨rfl, rfl⟩, fun pf => ⟨rfl, rfl, rfl⟩,
    fun inc x y w h => ⟨rfl, rfl, ?_⟩, fun down key => ⟨rfl, rfl, ?_⟩,
    fun mask x y => ⟨rfl, rfl⟩⟩
  · simp [createFramebufferUpdateRequest]
  · have h : createKeyEvent down key = 4 :: (if down then 1 else 0) :: 0 :: 0 :: (u32be key ++ []) := by
      simp [createKeyEvent]
    rw [h, show (4 : Nat) = 3 + 1 from rfl]
    rw [readU32_cons, readU32_cons, readU32_cons, readU32_cons, readU32_u32be]

theorem readU16_cons2 (a b : Nat) (l : List Nat) (off : Nat) :
    readU16 (a :: b :: l) (off + 2) = readU16 l off := by
  rw [show off + 2 = (off + 1) + 1 from rfl, readU16_cons, readU16_cons]

/-- C9: coordinate fields encode modulo 2^16. -/
theorem C9_u16_wraparound :
    (∀ mask x y : Int,
      (createPointerEvent mask x y).length = 6 ∧
      readU16 (createPointerEvent mask x y) 2 = (x % 65536).toNat ∧
      readU16 (createPointerEvent mask x y) 4 = (y % 65536).toNat) ∧
    (∀ (inc : Bool) (x y w h : Int),
      (createFramebufferUpdateRequest inc x y w h).length = 10 ∧
      readU16 (createFramebufferUpdateRequest inc x y w h) 2 = (x % 65536).toNat ∧
      readU16 (createFramebufferUpdateRequest inc x y w h) 4 = (y % 65536).toNat ∧
      readU16 (createFramebufferUpdateRequest inc x y w h) 6 = (w % 65536).toNat ∧
      readU16 (createFramebufferUpdateRequest inc x y w h) 8 = (h % 65536).toNat) ∧
    readU16 (createPointerEvent 1 (-5) 70000) 2 = 65531 ∧
    readU16 (createPointerEvent 1 (-5) 70000) 4 = 4464 := by
  have hp : ∀ mask x y : Int,
      createPointerEvent mask x y = 5 :: u8 mask :: (u16be x ++ (u16be y ++ [])) := by
    intro mask x y; simp [createPointerEvent]
  have hu : ∀ v : Int, ∀ rest : List Nat, u16be v ++ rest
      = (v % 65536).toNat / 256 :: (v % 65536).toNat % 256 :: rest := by
    intro v rest; simp [u16be]
  refine ⟨fun mask x y => ⟨rfl, ?_, ?_⟩, fun inc x y w h => ⟨rfl, ?_, ?_, ?_, ?_⟩, by decide, by decide⟩
  · rw [hp, show (2 : Nat) = 0 + 2 from rfl, readU16_cons2, readU16_u16be]
  · rw [hp, show (4 : Nat) = 2 + 2 from rfl, readU16_cons2, hu x,
      show (2 : Nat) = 0 + 2 from rfl, readU16_cons2, readU16_u16be]
  · rw [show createFramebufferUpdateRequest inc x y w h
        = 3 :: (if inc then 1 else 0) :: (u16be x ++ (u16be y ++ (u16be w ++ (u16be h ++ []))))
      from by simp [createFramebufferUpdateRequest],
      show (2 : Nat) = 0 + 2 from rfl, readU16_cons2, readU16_u16be]
  · rw [show createFramebufferUpdateRequest inc x y w h
        = 3 :: (if inc then 1 else 0) :: (u16be x ++ (u16be y ++ (u16be w ++ (u16be h ++ []))))
      from by simp [createFramebufferUpdateRequest],
      show (4 : Nat) = 2 + 2 from rfl, readU16_cons2, hu x,
      show (2 : Nat) = 0 + 2 from rfl, readU16_cons2, readU16_u16be]
  · rw [show createFramebufferUpdateRequest inc x y w h
        = 3 :: (if inc then 1 else 0) :: (u16be x ++ (u16be y ++ (u16be w ++ (u16be h ++ []))))
      from by simp [createFramebufferUpdateRequest],
      show (6 : Nat) = 4 + 2 from rfl, readU16_cons2, hu x,
      show (4 : Nat) = 2 + 2 from rfl, readU16_cons2, hu y,
      show (2 : Nat) = 0 + 2 from rfl, readU16_cons2, readU16_u16be]
  · rw [show createFramebufferUpdateRequest inc x y w h
        = 3 :: (if inc then 1 else 0) :: (u16be x ++ (u16be y ++ (u16be w ++ (u16be h ++ []))))
      from by simp [createFramebufferUpdateRequest],
      show (8 : Nat) = 6 + 2 from rfl, readU16_cons2, hu x,
      show (6 : Nat) = 4 + 2 from rfl, readU16_cons2, hu y,
      show (4 : Nat) = 2 + 2 from rfl, readU16_cons2, hu w,
      show (2 : Nat) = 0 + 2 from rfl, readU16_cons2, readU16_u16be]

/-- C10: parseServerInit totality/partiality at the public interface. -/
theorem C10_parse_server_init (data : List Nat) (h : 24 ≤ data.length) :
    (24 + readU32 data 20 ≤ data.length →
      parseServerInit data = .ok
        { width := readU16 data 0
          height := readU16 data 2
          pixelFormat :=
            { bitsPerPixel := Int.ofNat (data.getD 4 0)
              depth := Int.ofNat (data.getD 5 0)
              bigEndian := data.getD 6 0 == 1
              trueColor := data.getD 7 0 == 1
              redMax := Int.ofNat (readU16 data 8)
              greenMax := Int.ofNat (readU16 data 10)
              blueMax := Int.ofNat (readU16 data 12)
              redShift := Int.ofNat (data.getD 14 0)
              greenShift := Int.ofNat (data.getD 15 0)
              blueShift := Int.ofNat (data.getD 16 0) }
          name := (data.drop 24).take (readU32 data 20) } ∧
      ((data.drop 24).take (readU32 data 20)).length = readU32 data 20) ∧
    (data.length < 24 + readU32 data 20 →
      parseServerInit data = .error "Invalid typed array length") := by
  constructor
  · intro hle
    refine ⟨?_, ?_⟩
    · simp [parseServerInit, h, hle]
    · simp only [List.length_take, List.length_drop]
      omega
  · intro hgt
    have hn : ¬(24 + readU32 data 20 ≤ data.length) := by omega
    simp [parseServerInit, h, hn]

theorem C10_witness :
    24 ≤ sampleServerInitBytes.length ∧
    parseServerInit sampleServerInitBytes
      = .ok { width := 800, height := 600,
              pixelFormat := getDefaultPixelFormat, name := [65] } :=
  ⟨by decide, by
    have h := (C10_parse_server_init sampleServerInitBytes (by decide)).1 (by decide)
    rw [h.1]
    rfl⟩


/-- C1: the inbound handshake processing is NOT invariant under chunking.
The 2-byte security-types offer `[0x01, 0x01]` (one type: None) delivered
as one chunk makes the client answer and advance to `AwaitServerInit`;
delivered as two 1-byte chunks, each chunk fails the `byteLength >= 2`
guard of `handleSecurityResponse` and is dropped whole — no buffering —
so the machine stays in `AwaitSecurityTypes` and sends nothing. -/
theorem C1_framing_not_chunk_invariant :
    processChunks defaultOptions securityPhaseState [[1, 1]]
      = ({ securityPhaseState with phase := .init },
         [[1], [1]], []) ∧
    processChunks defaultOptions securityPhaseState [[1], [1]]
      = (securityPhaseState, [], []) ∧
    processChunks defaultOptions securityPhaseState [[1, 1]]
      ≠ processChunks defaultOptions securityPhaseState [[1], [1]] := by
  refine ⟨by decide, by decide, by decide⟩

/-- C4 counterexample: a pointer event with client coordinates
`x = -5, y = 10000` at scale 1 on a 1024×768 server is encoded with wire
`x = 65531` (two's-complement u16 wrap of −5) and wire `y = 10000` — not
the claimed clamped `x = 0, y = 767`. -/
theorem C4_counterexample :
    sendPointerEvent defaultOptions connectedState 1 (-5) 10000
      = [[5, 1, 255, 251, 39, 16]] ∧
    readU16 [5, 1, 255, 251, 39, 16] 2 = 65531 ∧
    readU16 [5, 1, 255, 251, 39, 16] 4 = 10000 ∧
    ¬(readU16 [5, 1, 255, 251, 39, 16] 2 = 0 ∧
      readU16 [5, 1, 255, 251, 39, 16] 4 = 767) := by
  have hx : ⌊(-5 : ℚ) / defaultOptions.scale⌋ = -5 := by
    show ⌊(-5 : ℚ) / 1⌋ = -5
    norm_num
  have hy : ⌊(10000 : ℚ) / defaultOptions.scale⌋ = 10000 := by
    show ⌊(10000 : ℚ) / 1⌋ = 10000
    norm_num
  refine ⟨?_, by decide, by decide, by decide⟩
  simp only [sendPointerEvent, sendAll, hx, hy]
  norm_num [connectedState, defaultOptions]
  decide

/-- C4 amended: for every pointer event accepted while connected with an
open transport and not view-only, the wire coordinates are the client
coordinates divided by the scale and floored to integers, then reduced
modulo 2^16 (no clamping to the server's width/height occurs). -/
theorem C4_pointer_encoding (opts : Options) (s : ClientState) (buttons : Int)
    (x y : ℚ) (hc : s.connected = true) (hv : opts.viewOnly = false)
    (hw : s.wsOpen = true) :
    sendPointerEvent opts s buttons x y
      = [createPointerEvent buttons (Int.floor (x / opts.scale))
          (Int.floor (y / opts.scale))] ∧
    readU16 (createPointerEvent buttons (Int.floor (x / opts.scale))
        (Int.floor (y / opts.scale))) 2
      = ((Int.floor (x / opts.scale)) % 65536).toNat ∧
    readU16 (createPointerEvent buttons (Int.floor (x / opts.scale))
        (Int.floor (y / opts.scale))) 4
      = ((Int.floor (y / opts.scale)) % 65536).toNat := by
  refine ⟨?_, (C9_u16_wraparound.1 _ _ _).2.1, (C9_u16_wraparound.1 _ _ _).2.2⟩
  simp [sendPointerEvent, sendAll, hc, hv, hw]

theorem C4_witness :
    sendPointerEvent defaultOptions connectedState 1 (-5) 10000
      = [createPointerEvent 1 (Int.floor ((-5 : ℚ) / defaultOptions.scale))
          (Int.floor ((10000 : ℚ) / defaultOptions.scale))] :=
  (C4_pointer_encoding defaultOptions connectedState 1 (-5) 10000 rfl rfl rfl).1

/-- C6 counterexample: two successive `disconnect()` calls emit two
`disconnected` events, not exactly one. -/
theorem C6_counterexample :
    ((disconnect connectedState).2
        ++ (disconnect (disconnect connectedState).1).2).count Ev.disconnected = 2 ∧
    (2 : Nat) ≠ 1 := by
  refine ⟨by decide, by decide⟩

/-- C6 amended: `disconnect()` always ends in the Disconnected state with
the reconnect counter zeroed and the timer cleared, and is idempotent on
the state — but every call, including a repeated one, emits one
`disconnected` event (so two calls emit two). -/
theorem C6_disconnect_idempotent (s : ClientState) :
    (disconnect s).1.connected = false ∧
    (disconnect s).1.connecting = false ∧
    (disconnect s).1.reconnectAttempts = 0 ∧
    (disconnect s).1.timerArmed = false ∧
    (disconnect s).1.phase = .version ∧
    (disconnect s).1.wsOpen = false ∧
    disconnect (disconnect s).1 = disconnect s ∧
    (disconnect s).2 = [.disconnected] := by
  refine ⟨rfl, rfl, rfl, rfl, rfl, rfl, rfl, rfl⟩

/-- C7 counterexample: the unknown key `"F1"` maps to keysym 0, and an
outbound 8-byte key-event message carrying keysym 0 IS produced — the
source has no discard step between `keyToVNCKey` and `sendMessage`. -/
theorem C7_counterexample :
    keyToVNCKey "F1" "F1" = 0 ∧
    sendKeyEvent defaultOptions connectedState "F1" "F1" true
      = [[4, 1, 0, 0, 0, 0, 0, 0]] ∧
    [[4, 1, 0, 0, 0, 0, 0, 0]] ≠ ([] : List (List Nat)) := by
  refine ⟨by decide, by decide, by decide⟩

theorem singleton_data (c : Char) : (String.singleton c).data = [c] := rfl

theorem singleton_ne_of_data_length (c : Char) (s : String) (h : s.data.length ≠ 1) :
    String.singleton c ≠ s := by
  intro heq
  apply h
  rw [← heq, singleton_data]
  rfl

/-- C7 amended: the listed navigation/editing keys map to their canonical
X11 keysyms, single BMP characters map to their code point, and unknown
keys map to keysym 0 — but an unknown key is NOT discarded: while
connected and not view-only a key event carrying keysym 0 is emitted. -/
theorem C7_keysym_mapping :
    keyToVNCKey "Backspace" "" = 0xff08 ∧
    keyToVNCKey "Tab" "" = 0xff09 ∧
    keyToVNCKey "Enter" "" = 0xff0d ∧
    keyToVNCKey "Escape" "" = 0xff1b ∧
    keyToVNCKey "Delete" "" = 0xffff ∧
    keyToVNCKey "ArrowLeft" "" = 0xff51 ∧
    keyToVNCKey "ArrowUp" "" = 0xff52 ∧
    keyToVNCKey "ArrowRight" "" = 0xff53 ∧
    keyToVNCKey "ArrowDown" "" = 0xff54 ∧
    keyToVNCKey " " "" = 0x20 ∧
    (∀ (c : Char) (code : String), c.toNat < 65536 →
      keyToVNCKey (String.singleton c) code = c.toNat) ∧
    (∀ (key code : String) (opts : Options) (s : ClientState) (down : Bool),
      keyMapGet key = 0 → jsStringLength key ≠ 1 →
      keyToVNCKey key code = 0 ∧
      (s.connected = true → opts.viewOnly = false → s.wsOpen = true →
        sendKeyEvent opts s key code down = [createKeyEvent down 0])) := by
  refine ⟨by decide, by decide, by decide, by decide, by decide, by decide,
    by decide, by decide, by decide, by decide, ?_, ?_⟩
  · intro c code hc
    by_cases hsp : c = ' '
    · subst hsp
      have hs : String.singleton ' ' = " " := rfl
      rw [hs]
      have hk : keyMapGet " " = 32 := by decide
      show (if keyMapGet " " ≠ 0 then keyMapGet " " else
        if jsStringLength " " = 1 then jsCharCodeAt0 " " else 0) = ' '.toNat
      rw [hk]
      have h32 : (32 : Nat) ≠ 0 := by norm_num
      rw [if_pos h32]
      rfl
    · have h1 : String.singleton c ≠ "Backspace" :=
        singleton_ne_of_data_length c _ (by decide)
      have h2 : String.singleton c ≠ "Tab" :=
        singleton_ne_of_data_length c _ (by decide)
      have h3 : String.singleton c ≠ "Enter" :=
        singleton_ne_of_data_length c _ (by decide)
      have h4 : String.singleton c ≠ "Escape" :=
        singleton_ne_of_data_length c _ (by decide)
      have h5 : String.singleton c ≠ "Delete" :=
        singleton_ne_of_data_length c _ (by decide)
      have h6 : String.singleton c ≠ "ArrowLeft" :=
        singleton_ne_of_data_length c _ (by decide)
      have h7 : String.singleton c ≠ "ArrowUp" :=
        singleton_ne_of_data_length c _ (by decide)
      have h8 : String.singleton c ≠ "ArrowRight" :=
        singleton_ne_of_data_length c _ (by decide)
      have h9 : String.singleton c ≠ "ArrowDown" :=
        singleton_ne_of_data_length c _ (by decide)
      have h10 : String.singleton c ≠ " " := by
        intro heq
        apply hsp
        have hd := congrArg String.data heq
        rw [singleton_data] at hd
        have hdd : [c] = [' '] := by
          rw [hd]
        exact (List.cons.injEq c [] ' ' []).mp hdd |>.1
      have hmap : keyMapGet (String.singleton c) = 0 := by
        simp [keyMapGet, h1, h2, h3, h4, h5, h6, h7, h8, h9, h10]
      have hlen : jsStringLength (String.singleton c) = 1 := by
        simp [jsStringLength, singleton_data, hc]
      have hcode : jsCharCodeAt0 (String.singleton c) = c.toNat := by
        show (if c.toNat < 65536 then c.toNat else 0xD800 + (c.toNat - 65536) / 1024)
          = c.toNat
        simp [hc]
      simp [keyToVNCKey, hmap, hlen, hcode]
  · intro key code opts s down hk hl
    refine ⟨by simp [keyToVNCKey, hk, hl], ?_⟩
    intro hc hv hw
    simp [sendKeyEvent, sendAll, hc, hv, hw, keyToVNCKey, hk, hl]

theorem C7_witness :
    keyToVNCKey (String.singleton (Char.ofNat 97)) "KeyA" = 97 :=
  C7_keysym_mapping.2.2.2.2.2.2.2.2.2.2.1 (Char.ofNat 97) "KeyA" (by decide)

theorem foldl_push_filtered (g : Nat → Nat) (cond : Nat → Prop) [DecidablePred cond] :
    ∀ (l : List Nat), (∀ i ∈ l, cond i) → ∀ init : List Nat,
      l.foldl (fun acc i => if cond i then acc ++ [g i] else acc) init
        = init ++ l.map g := by
  intro l
  induction l with
  | nil => intro _ init; simp
  | cons a t ih =>
    intro h init
    simp only [List.foldl_cons, List.map_cons]
    rw [if_pos (h a (List.mem_cons_self a t)),
      ih (fun i hi => h i (List.mem_cons_of_mem a hi)) (init ++ [g a])]
    simp

theorem map_getD_range (l : List Nat) :
    (List.range l.length).map (fun i => l.getD i 0) = l := by
  apply List.ext_getElem
  · simp
  · intro i h1 h2
    simp [List.getD_eq_getElem?_getD, List.getElem?_eq_getElem h2]

/-- On a well-formed offer `[n] ++ types` with `n = types.length`, the
collection loop recovers exactly the offered types. -/
theorem secTypesOf_wire (types : List Nat) :
    secTypesOf (types.length :: types) types.length = types := by
  have hmem : ∀ i ∈ List.range types.length,
      1 + i < (types.length :: types).length := by
    intro i hi
    simp only [List.mem_range] at hi
    simp only [List.length_cons]
    omega
  unfold secTypesOf
  rw [foldl_push_filtered (fun i => (types.length :: types).getD (1 + i) 0)
    (fun i => 1 + i < (types.length :: types).length) (List.range types.length)
    hmem []]
  simp only [List.nil_append]
  have hstep : (List.range types.length).map
      (fun i => (types.length :: types).getD (1 + i) 0)
      = (List.range types.length).map (fun i => types.getD i 0) := by
    apply List.map_congr_left
    intro i _
    rw [Nat.add_comm, List.getD_cons_succ]
  rw [hstep, map_getD_range]

/-- C3: security-type selection. For every non-empty offer: type 2 is
chosen iff a password is configured and 2 is offered (even if 1 is also
offered, and the 1-byte choice `[2]` is sent, moving to the auth phase);
otherwise type 1 if offered (the 1-byte choice `[1]` is sent followed by
ClientInit, moving to the init phase); otherwise the handshake fails with
no supported security type. -/
theorem C3_security_type_selection (password types : List Nat) (hne : types ≠ []) :
    (password ≠ [] ∧ 2 ∈ types →
      handleSecurityResponse password (types.length :: types)
        = .ok ([[2]], .auth)) ∧
    (¬(password ≠ [] ∧ 2 ∈ types) → 1 ∈ types →
      handleSecurityResponse password (types.length :: types)
        = .ok ([[1], createClientInit true], .init)) ∧
    (¬(password ≠ [] ∧ 2 ∈ types) → 1 ∉ types →
      handleSecurityResponse password (types.length :: types)
        = .error .noSupportedSecType) := by
  have hpos : 0 < types.length := List.length_pos.mpr hne
  have hlen : 2 ≤ (types.length :: types).length := by
    simp only [List.length_cons]
    omega
  have hnz : ¬((types.length :: types).getD 0 0 = 0) := by
    simp only [List.getD_cons_zero]
    omega
  have hbody : handleSecurityResponse password (types.length :: types)
      = (if password ≠ [] ∧ 2 ∈ types then .ok ([[2]], .auth)
         else if 1 ∈ types then .ok ([[1], createClientInit true], .init)
         else .error .noSupportedSecType) := by
    unfold handleSecurityResponse
    rw [if_pos hlen, if_neg hnz, List.getD_cons_zero, secTypesOf_wire]
  refine ⟨fun h => ?_, fun h h1 => ?_, fun h h1 => ?_⟩
  · rw [hbody, if_pos h]
  · rw [hbody, if_neg h, if_pos h1]
  · rw [hbody, if_neg h, if_neg h1]

theorem C3_witness :
    handleSecurityResponse [115] [2, 1, 2] = .ok ([[2]], .auth) :=
  (C3_security_type_selection [115] [1, 2] (by decide)).1 (by decide)

theorem shouldAttemptReconnect_iff (m a c : Nat) :
    shouldAttemptReconnect m a c = true ↔ (c = 1006 ∧ a < m) := by
  simp [shouldAttemptReconnect, List.contains]

/-- C5: the reconnect policy. A reconnect is scheduled iff the session
was connected, the close code is 1006, and the counter is below the
limit; the scheduled delay for attempt `n = attempts+1` is
`min(1000·2^(n−1), 10000)`; codes 1002/1003 never schedule and, when a
reconnection sequence was in progress, saturate the counter so no later
close can schedule; any code other than 1006 never schedules. -/
theorem C5_reconnect_policy (maxAttempts : Nat) (s : ClientState) (code : Nat) :
    ((handleConnectionClose maxAttempts s code).2.1.isSome
      ↔ (s.connected = true ∧ code = 1006 ∧ s.reconnectAttempts < maxAttempts)) ∧
    (∀ d, (handleConnectionClose maxAttempts s code).2.1 = some d →
      d = backoffDelay (s.reconnectAttempts + 1) ∧
      (handleConnectionClose maxAttempts s code).1.reconnectAttempts
        = s.reconnectAttempts + 1) ∧
    ((code = 1002 ∨ code = 1003) →
      (handleConnectionClose maxAttempts s code).2.1 = none ∧
      (0 < s.reconnectAttempts →
        (handleConnectionClose maxAttempts s code).1.reconnectAttempts = maxAttempts ∧
        ∀ c2, shouldAttemptReconnect maxAttempts
          (handleConnectionClose maxAttempts s code).1.reconnectAttempts c2 = false)) ∧
    (code ≠ 1006 → (handleConnectionClose maxAttempts s code).2.1 = none) := by
  simp only [handleConnectionClose]
  by_cases hc : s.connected = true ∧ code = 1006 ∧ s.reconnectAttempts < maxAttempts
  · obtain ⟨h1, h2, h3⟩ := hc
    have hb : (s.connected && shouldAttemptReconnect maxAttempts s.reconnectAttempts code)
        = true := by
      rw [h1, Bool.true_and, shouldAttemptReconnect_iff]
      exact ⟨h2, h3⟩
    rw [hb]
    simp only [if_true]
    have hng : ¬(maxAttempts ≤ s.reconnectAttempts) := by omega
    rw [if_neg hng]
    refine ⟨by simp [h1, h2, h3], fun d hd => ?_, fun habs => ?_, fun habs => ?_⟩
    · simp only [Option.some.injEq] at hd
      exact ⟨hd.symm, rfl⟩
    · rcases habs with h | h <;> omega
    · omega
  · have hb : (s.connected && shouldAttemptReconnect maxAttempts s.reconnectAttempts code)
        = false := by
      cases hcon : s.connected with
      | false => rw [Bool.false_and]
      | true =>
        rw [Bool.true_and, Bool.eq_false_iff]
        intro hsr
        rw [shouldAttemptReconnect_iff] at hsr
        exact hc ⟨hcon, hsr.1, hsr.2⟩
    rw [hb]
    simp only [Bool.false_eq_true, if_false]
    by_cases hp : 0 < s.reconnectAttempts ∧ (code = 1003 ∨ code = 1002)
    · rw [if_pos hp]
      refine ⟨?_, fun d hd => by simp at hd,
        fun hcode => ⟨rfl, fun hpos => ⟨rfl, ?_⟩⟩, fun _ => rfl⟩
      · simp only [Option.isSome_none, Bool.false_eq_true, false_iff]
        exact hc
      · intro c2
        rw [Bool.eq_false_iff]
        intro hcon2
        rw [shouldAttemptReconnect_iff] at hcon2
        exact absurd hcon2.2 (by simp)
    · rw [if_neg hp]
      refine ⟨?_, fun d hd => by simp at hd,
        fun hcode => ⟨rfl, fun hpos => ?_⟩, fun _ => rfl⟩
      · simp only [Option.isSome_none, Bool.false_eq_true, false_iff]
        exact hc
      · exact absurd ⟨hpos, hcode.symm⟩ hp

theorem C5_witness :
    (handleConnectionClose 3 connectedState 1002).2.1 = none :=
  ((C5_reconnect_policy 3 connectedState 1002).2.2.1 (Or.inl rfl)).1

/-- C2: for every byte-valued password and 16-byte challenge, the VNC
authenticator equals the spec-modelled §4.2 construction — DES-ECB over
the two 8-byte challenge halves with the zero-padded, per-byte
bit-reversed key — and the embedded DES block function reproduces the
classic published DES test vectors (so it is standard DES: IP, 16 rounds
under PC-1/PC-2 with the 1,1,2,…,1 rotation schedule, E, the 8 S-boxes,
P, FP). -/
theorem C2_vnc_authenticator :
    (∀ password challenge : List Nat,
      (∀ b ∈ password, b < 256) → challenge.length = 16 →
      vncEncrypt password challenge = specVNCAuth password challenge) ∧
    vncDesEncrypt [0x01, 0x23, 0x45, 0x67, 0x89, 0xAB, 0xCD, 0xEF]
        [0x13, 0x34, 0x57, 0x79, 0x9B, 0xBC, 0xDF, 0xF1]
      = [0x85, 0xE8, 0x13, 0x54, 0x0F, 0x0A, 0xB4, 0x05] ∧
    vncDesEncrypt [0x87, 0x87, 0x87, 0x87, 0x87, 0x87, 0x87, 0x87]
        [0x0E, 0x32, 0x92, 0x32, 0xEA, 0x6D, 0x0D, 0x73]
      = [0, 0, 0, 0, 0, 0, 0, 0] :=
  ⟨fun p c hp _ => vncEncrypt_eq_spec p c hp, by decide, by decide⟩

theorem C2_witness :
    vncEncrypt [0x73, 0x65, 0x63, 0x72, 0x65, 0x74] (List.replicate 16 0)
      = specVNCAuth [0x73, 0x65, 0x63, 0x72, 0x65, 0x74] (List.replicate 16 0) :=
  C2_vnc_authenticator.1 [0x73, 0x65, 0x63, 0x72, 0x65, 0x74]
    (List.replicate 16 0) (by decide) (by decide)

end ReactVNC
